import Mathlib

/-!
Verification of the portal client of `proyecto-de-software`.

This file gives a shallow embedding, in Lean 4, of the client-side logic
that the specification talks about:

* the favorites Pinia store (`src/portal/src/stores/auth.js`, favorites
  section): `normalizeId`, `isFavorite`, `isPending`, `setPending`,
  `applyFavorite`, `setFavorite`, `toggleFavorite`, `hydrateFromSites`,
  `reset`;
* the auth store's `logout` action;
* the site-list view (`src/portal/src/views/SiteListView.vue`):
  client-side filtering of a fetched page (`filteredItems`), pagination
  bookkeeping (`canGoPrevPage`, `canGoNextPage`, `goToPage`, the
  page-overflow redirect of the fetch `watchEffect`), and the
  error branch of that `watchEffect`;
* review-form validation in `src/portal/src/views/SiteDetailView.vue`;
* cover-image validation (`handleImageChange` in the site proposal form);
* the hero banner's search history (`saveTerm` and the `onMounted`
  restore).

JavaScript values are modelled explicitly: numbers whose only use is as an
id become `Int` behind an explicit "finite coercion" type, review ratings
(where `Number.isInteger` matters) become rationals-or-NaN, nullable
strings become `Option String`, and every `await fetch` becomes a
parameter describing the response.  Asynchronous actions become pure
functions from the pre-state and the response to the post-state plus an
explicit record of the observable effects (result, request issued,
navigation, storage writes).
-/

/-! ## JavaScript value modelling -/

/-- Result of the JavaScript coercion `Number(value)` as used for ids:
either a finite (integral) number or a non-finite result (`NaN`,
`Infinity`).  Fractional ids do not arise in this code, so the finite case
carries an `Int`. -/
inductive JsVal where
  | num (n : Int)
  | nonFinite
deriving Repr, DecidableEq

/-- Source: `const normalizeId = (value) => { const parsed = Number(value);
return Number.isFinite(parsed) ? parsed : null }`
(`src/portal/src/stores/auth.js`). `none` models `null`. -/
def normalizeId : JsVal → Option Int
  | .num n => some n
  | .nonFinite => none

/-- JavaScript truthiness of a normalized id (`!id` is true exactly when
`id` is `null` or `0`). -/
def idTruthy : Option Int → Bool
  | none => false
  | some n => !(n == 0)

/-! ## The favorites store (`stores/auth.js`, favorites section) -/

/-- State of the `favorites` Pinia store: `favoriteIds` is a JS `Set`
(modelled as a duplicate-free list in insertion order) and `pendingIds`
an array. -/
structure FavoritesState where
  favoriteIds : List Int
  pendingIds : List Int
deriving Repr, DecidableEq

/-- Source: `isFavorite(siteId)`: normalize, reject falsy ids, then
`favoriteIds.has(id)`. -/
def isFavorite (s : FavoritesState) (siteId : JsVal) : Bool :=
  match normalizeId siteId with
  | none => false
  | some id => if !(id == 0) then s.favoriteIds.contains id else false

/-- Source: `isPending(siteId)`: normalize, reject falsy ids, then
`pendingIds.includes(id)`. -/
def isPending (s : FavoritesState) (siteId : JsVal) : Bool :=
  match normalizeId siteId with
  | none => false
  | some id => if !(id == 0) then s.pendingIds.contains id else false

/-- Source: `setPending(siteId, value)`: add `id` to `pendingIds` if absent
(`value` truthy), otherwise filter it out.  Falsy ids leave the state
unchanged. -/
def setPending (s : FavoritesState) (siteId : JsVal) (value : Bool) : FavoritesState :=
  match normalizeId siteId with
  | none => s
  | some id =>
    if !(id == 0) then
      if value then
        if s.pendingIds.contains id then s
        else { s with pendingIds := s.pendingIds ++ [id] }
      else { s with pendingIds := s.pendingIds.filter (fun existing => !(existing == id)) }
    else s

/-- Source: `applyFavorite(siteId, shouldFavorite)`: `Set.add` / `Set.delete` on
`favoriteIds`, guarded on membership exactly as the source is. -/
def applyFavorite (s : FavoritesState) (siteId : JsVal) (shouldFavorite : Bool) : FavoritesState :=
  match normalizeId siteId with
  | none => s
  | some id =>
    if !(id == 0) then
      if shouldFavorite then
        if !(s.favoriteIds.contains id) then { s with favoriteIds := s.favoriteIds ++ [id] }
        else s
      else
        if s.favoriteIds.contains id then
          { s with favoriteIds := s.favoriteIds.filter (fun existing => !(existing == id)) }
        else s
    else s

/-- The outcome of the `await fetch(...)` inside `setFavorite`: either the
promise rejected, or a response with an HTTP status code arrived. -/
inductive FetchResult where
  | thrown
  | status (code : Nat)
deriving Repr, DecidableEq

/-- Source: `response.ok`: status in the range 200–299. -/
def responseOk (code : Nat) : Bool :=
  200 ≤ code && code < 300

/-- The errors `setFavorite` can throw, one constructor per `throw`
site (plus the underlying network error re-raised by `await`). -/
inductive FavError where
  | idInvalid
  | unauthorized
  | favoriteFailed
  | network
deriving Repr, DecidableEq

/-- The `message` of the thrown `Error` (the network error's message is
whatever the fetch rejection carried, not determined by this code). -/
def FavError.message : FavError → Option String
  | .idInvalid => some "ID inválido"
  | .unauthorized => some "unauthorized"
  | .favoriteFailed => some "favorite_failed"
  | .network => none

deriving instance DecidableEq for Except

/-- Observable outcome of one `setFavorite` call: the post-state, the
settled result (`.ok` for a normal return, `.error` for a throw) and
whether the HTTP request was actually issued. -/
structure SetFavoriteOutcome where
  state : FavoritesState
  result : Except FavError Bool
  requestSent : Bool
deriving Repr, DecidableEq

/-- Source: `setFavorite(siteId, shouldFavorite)` against a given fetch outcome.
Mirrors `stores/auth.js` lines 196–234: invalid-id throw, early return
for pending ids, `setPending(id, true)` before the fetch, status checks
(`401` → `unauthorized`; not ok and not `204` → `favorite_failed`),
`applyFavorite` only after those checks, and the `finally` clause
`setPending(id, false)` on every path that entered the `try`. -/
def setFavorite (s : FavoritesState) (siteId : JsVal) (shouldFavorite : Bool)
    (resp : FetchResult) : SetFavoriteOutcome :=
  match normalizeId siteId with
  | none => ⟨s, .error .idInvalid, false⟩
  | some id =>
    if !(id == 0) then
      if isPending s (JsVal.num id) then ⟨s, .ok (isFavorite s (JsVal.num id)), false⟩
      else
        let s1 := setPending s (JsVal.num id) true
        match resp with
        | .thrown => ⟨setPending s1 (JsVal.num id) false, .error .network, true⟩
        | .status code =>
          if code == 401 then
            ⟨setPending s1 (JsVal.num id) false, .error .unauthorized, true⟩
          else if !(responseOk code) && !(code == 204) then
            ⟨setPending s1 (JsVal.num id) false, .error .favoriteFailed, true⟩
          else
            ⟨setPending (applyFavorite s1 (JsVal.num id) shouldFavorite) (JsVal.num id) false,
              .ok shouldFavorite, true⟩
    else ⟨s, .error .idInvalid, false⟩

/-- Source: `toggleFavorite(siteId)`:
`setFavorite(siteId, !this.isFavorite(siteId))`. -/
def toggleFavorite (s : FavoritesState) (siteId : JsVal) (resp : FetchResult) :
    SetFavoriteOutcome :=
  setFavorite s siteId (!isFavorite s siteId) resp

/-- A fetch outcome on which `setFavorite` returns normally: a status
that is not `401` and is either ok or `204`. -/
def favRequestSucceeds : FetchResult → Bool
  | .thrown => false
  | .status code => !(code == 401) && (responseOk code || code == 204)

/-- Source: `reset()`: fresh empty `Set` and empty array. -/
def FavoritesState.reset (_s : FavoritesState) : FavoritesState :=
  ⟨[], []⟩

/-! ## The auth store's `logout` action -/

/-- State of the `auth` Pinia store (the fields `loadingUser`,
`loginPromptVisible`, `loginPromptNextUrl` are carried for fidelity). -/
structure AuthState where
  user : Option String
  loadingUser : Bool
  loginPromptVisible : Bool
  loginPromptNextUrl : String
deriving Repr, DecidableEq

/-- Outcome of the `axios.post(.../auth/jwt/logout)` call. -/
inductive LogoutResponse where
  | success
  | thrown
deriving Repr, DecidableEq

/-- Post-state of both stores after `logout()`. -/
structure LogoutOutcome where
  auth : AuthState
  favorites : FavoritesState
deriving Repr, DecidableEq

/-- Source: `logout()` (`stores/auth.js` lines 52–68): the POST is wrapped in
`try`/`catch` (the catch only logs), and the `finally` clause sets
`this.user = null` and calls `favoritesStore.reset()` on both outcomes. -/
def logout (a : AuthState) (f : FavoritesState) (resp : LogoutResponse) : LogoutOutcome :=
  match resp with
  | .success => ⟨{ a with user := none }, f.reset⟩
  | .thrown => ⟨{ a with user := none }, f.reset⟩

/-! ## String helpers for the site-list filter -/

/-- JavaScript `text.includes(pat)`: `pat` occurs contiguously in
`text`. -/
def jsIncludes (text pat : String) : Bool :=
  decide (pat.data <:+: text.data)

/-- Source: `value.replace(/\s+/g, '')`: drop every whitespace character. -/
def compactWs (s : String) : String :=
  String.mk (s.data.filter (fun c => !c.isWhitespace))

/-- JavaScript truthiness of a string: non-empty. -/
def strTruthy (s : String) : Bool :=
  !(s == "")

/-- JavaScript `s.toLowerCase()`: lower-case the string character by
character. -/
def jsToLower (s : String) : String :=
  String.mk (s.data.map Char.toLower)

/-- JavaScript `s.trim()`: strip leading and trailing whitespace. -/
def jsTrim (s : String) : String :=
  String.mk (((s.data.dropWhile Char.isWhitespace).reverse.dropWhile
    Char.isWhitespace).reverse)

/-! ## The site record as the filter reads it

One `Option` field per JSON key the filter code touches; `none` models an
absent / nullish key. -/

structure Site where
  id : JsVal
  name : Option String
  city : Option String
  province : Option String
  short_description : Option String
  shortDescription : Option String
  shortDesc : Option String
  full_description : Option String
  fullDescription : Option String
  description : Option String
  tags : Option (List (Option String))
  state_of_conservation : Option String
  conservation_status : Option String
  conservationStatus : Option String
  is_favorite : Option Bool
  isFavorite : Option Bool
  category : Option String
  category_name : Option String
  categoryName : Option String
  inaguration_year : Option Int
  inauguration_year : Option Int
  inaugYear : Option Int
deriving Repr, DecidableEq

/-- Source: `site.short_description ?? site.shortDescription ?? site.shortDesc
?? ''`. -/
def Site.resolvedShortDescription (site : Site) : String :=
  (site.short_description <|> site.shortDescription <|> site.shortDesc).getD ""

/-- Source: `site.full_description ?? site.fullDescription ?? site.description
?? ''`. -/
def Site.resolvedFullDescription (site : Site) : String :=
  (site.full_description <|> site.fullDescription <|> site.description).getD ""

/-- Source: `(site.tags || []).map((tag) => (tag || '').toLowerCase())`. -/
def Site.normalizedTags (site : Site) : List String :=
  (site.tags.getD []).map (fun tag => jsToLower (tag.getD ""))

/-- Source: `(site.state_of_conservation ?? site.conservation_status ??
site.conservationStatus ?? '').toString().toLowerCase()`. -/
def Site.normalizedStatus (site : Site) : String :=
  jsToLower
    ((site.state_of_conservation <|> site.conservation_status <|> site.conservationStatus).getD "")

/-- Source: `site.is_favorite === true || site.isFavorite === true ||
favoritesStore.isFavorite(site.id)` (the per-site favorite flag of the
filter). -/
def siteFavoriteFlag (favorites : FavoritesState) (site : Site) : Bool :=
  site.is_favorite == some true || site.isFavorite == some true || isFavorite favorites site.id

/-! ## The active filters (`activeFilters` computed of `SiteListView.vue`) -/

structure Filters where
  q : String
  city : String
  province : String
  conservation_status : String
  favorites : Bool
  tags : List String
  tags_mode : String
  page : Int
  per_page : Int
deriving Repr, DecidableEq

/-- Source: `const SITES_PER_PAGE = 20`. -/
def SITES_PER_PAGE : Int := 20

/-- Source: `filters.tags.map((tag) => tag.trim().toLowerCase()).filter(Boolean)`. -/
def desiredTagsOf (filters : Filters) : List String :=
  (filters.tags.map (fun tag => jsToLower (jsTrim tag))).filter strTruthy

/-- The `matchesText` helper of the filter: trivially true for an empty
search, otherwise a case-insensitive substring test with a
whitespace-insensitive fallback guarded on a non-empty compacted
search. -/
def codeMatchesText (normalizedSearch compactSearch : String) (value : Option String) : Bool :=
  let text := jsToLower (value.getD "")
  let compact := compactWs text
  if !(strTruthy normalizedSearch) then true
  else jsIncludes text normalizedSearch ||
    (strTruthy compactSearch && jsIncludes compact compactSearch)

/-- The per-site predicate of `filteredItems` (`SiteListView.vue` lines
255–328), translated clause for clause: the normalized filter values, the
`matchesText` helper, and the conjunction of the six `matches*`
booleans. -/
def codeSitePredicate (filters : Filters) (authenticated : Bool)
    (favorites : FavoritesState) (site : Site) : Bool :=
  let normalizedSearch := jsToLower (jsTrim filters.q)
  let compactSearch := compactWs normalizedSearch
  let normalizedCity := jsToLower (jsTrim filters.city)
  let compactCity := compactWs normalizedCity
  let normalizedProvince := jsToLower (jsTrim filters.province)
  let compactProvince := compactWs normalizedProvince
  let normalizedStatus := jsToLower (jsTrim filters.conservation_status)
  let desiredTags := desiredTagsOf filters
  let requireAllTags := filters.tags_mode == "all" && decide (2 ≤ desiredTags.length)
  let favoritesOnly := filters.favorites && authenticated
  let shortDescription := site.resolvedShortDescription
  let fullDescription := site.resolvedFullDescription
  let siteTags := site.normalizedTags
  let siteStatus := site.normalizedStatus
  let matchesSearch :=
    !(strTruthy normalizedSearch) ||
      [site.name, site.city, site.province, some shortDescription, some fullDescription].any
        (codeMatchesText normalizedSearch compactSearch)
  let siteCity := jsToLower (site.city.getD "")
  let siteCityCompact := compactWs siteCity
  let matchesCity :=
    !(strTruthy normalizedCity) || jsIncludes siteCity normalizedCity ||
      (strTruthy compactCity && jsIncludes siteCityCompact compactCity)
  let siteProvince := jsToLower (site.province.getD "")
  let siteProvinceCompact := compactWs siteProvince
  let matchesProvince :=
    !(strTruthy normalizedProvince) || jsIncludes siteProvince normalizedProvince ||
      (strTruthy compactProvince && jsIncludes siteProvinceCompact compactProvince)
  let matchesStatus := !(strTruthy normalizedStatus) || siteStatus == normalizedStatus
  let matchesTags :=
    decide (desiredTags.length = 0) ||
      (if requireAllTags then desiredTags.all (fun tag => siteTags.contains tag)
       else desiredTags.any (fun tag => siteTags.contains tag))
  let matchesFavorites := !favoritesOnly || siteFavoriteFlag favorites site
  matchesSearch && matchesCity && matchesProvince && matchesStatus && matchesTags &&
    matchesFavorites

/-- Source: `filteredItems`: the fetched page, filtered by the per-site
predicate. -/
def clientFilteredItems (filters : Filters) (authenticated : Bool)
    (favorites : FavoritesState) (rawItems : List Site) : List Site :=
  rawItems.filter (codeSitePredicate filters authenticated favorites)

/-! ### Spec-side reading of the filter claim

These definitions follow the wording of the specification claim: the
sites kept are exactly those matching every active filter, where the
free-text filter is a whitespace-insensitive, case-insensitive substring
test over name, city, province and both descriptions; city and province
are substring-matched; conservation status is matched exactly
(case-insensitively); tags require all selected tags only in `all` mode
with at least two selections; and the favorites filter (for an
authenticated user) requires a positive favorite flag on the site or in
the favorites store. -/

/-- Needle `needle` occurs in `text` ignoring case and whitespace. -/
def looseSubstring (needle text : String) : Bool :=
  jsIncludes (compactWs (jsToLower text)) (compactWs needle)

/-- Spec: free-text match against name, city, province and both
descriptions (whitespace-insensitive, case-insensitive substring); an
empty search matches everything. -/
def specFreeTextMatch (q : String) (site : Site) : Bool :=
  let search := jsToLower (jsTrim q)
  search == "" ||
    [site.name, site.city, site.province, some site.resolvedShortDescription,
      some site.resolvedFullDescription].any
      (fun value => looseSubstring search (value.getD ""))

/-- Spec: substring match on city (after the same normalization). -/
def specCityMatch (cityFilter : String) (site : Site) : Bool :=
  let needle := jsToLower (jsTrim cityFilter)
  needle == "" || looseSubstring needle (site.city.getD "")

/-- Spec: substring match on province. -/
def specProvinceMatch (provinceFilter : String) (site : Site) : Bool :=
  let needle := jsToLower (jsTrim provinceFilter)
  needle == "" || looseSubstring needle (site.province.getD "")

/-- Spec: exact case-insensitive match on conservation status. -/
def specStatusMatch (statusFilter : String) (site : Site) : Bool :=
  let needle := jsToLower (jsTrim statusFilter)
  needle == "" || site.normalizedStatus == needle

/-- Spec: every selected tag is required only when `tags_mode` is `all`
and at least two tags are selected; otherwise one selected tag
suffices. -/
def specTagsMatch (filters : Filters) (site : Site) : Bool :=
  let desired := desiredTagsOf filters
  decide (desired.length = 0) ||
    (if filters.tags_mode == "all" && decide (2 ≤ desired.length) then
      desired.all (fun tag => site.normalizedTags.contains tag)
     else desired.any (fun tag => site.normalizedTags.contains tag))

/-- Spec: when the favorites filter is active for an authenticated user,
the site must carry a positive favorite flag or be in the favorites
store. -/
def specFavoritesMatch (favoritesFilter authenticated : Bool) (favorites : FavoritesState)
    (site : Site) : Bool :=
  !(favoritesFilter && authenticated) || siteFavoriteFlag favorites site

/-- Spec: a site matches every active filter. -/
def specSiteMatches (filters : Filters) (authenticated : Bool) (favorites : FavoritesState)
    (site : Site) : Bool :=
  specFreeTextMatch filters.q site &&
  specCityMatch filters.city site &&
  specProvinceMatch filters.province site &&
  specStatusMatch filters.conservation_status site &&
  specTagsMatch filters site &&
  specFavoritesMatch filters.favorites authenticated favorites site

/-! ## Pagination bookkeeping (`SiteListView.vue`) -/

/-- Source: `a || b` on JavaScript numbers (`0` is falsy; the values stored in
`pagination` are finite). -/
def jsOrInt (n d : Int) : Int :=
  if n == 0 then d else n

/-- The `pagination` ref: `{ page, per_page, total, pages }`. -/
structure Pagination where
  page : Int
  per_page : Int
  total : Int
  pages : Int
deriving Repr, DecidableEq

/-- Initial value of the `pagination` ref. -/
def initialPagination : Pagination :=
  ⟨1, SITES_PER_PAGE, 0, 1⟩

/-- Source: `canGoPrevPage`: `(pagination.value.page || 1) > 1`. -/
def canGoPrevPage (p : Pagination) : Bool :=
  1 < jsOrInt p.page 1

/-- Source: `canGoNextPage`:
`(pagination.value.page || 1) < (pagination.value.pages || 1)`. -/
def canGoNextPage (p : Pagination) : Bool :=
  jsOrInt p.page 1 < jsOrInt p.pages 1

/-- What `goToPage` does: nothing, or a `router.push` towards a page. -/
inductive Navigation where
  | stay
  | push (page : Int)
deriving Repr, DecidableEq

/-- Source: `goToPage(targetPage)` (`SiteListView.vue` lines 655–672):
clamp the target with `Math.min(Math.max(1, targetPage), totalPages)`
and push only when the clamped target differs from the current page. -/
def goToPage (p : Pagination) (targetPage : Int) : Navigation :=
  let totalPages := jsOrInt p.pages 1
  let safeTarget := min (max 1 targetPage) totalPages
  if safeTarget == jsOrInt p.page 1 then .stay else .push safeTarget

/-- Source: `handlePrevPage`: `goToPage((pagination.value.page || 1) - 1)`. -/
def handlePrevPage (p : Pagination) : Navigation :=
  goToPage p (jsOrInt p.page 1 - 1)

/-- Source: `handleNextPage`: `goToPage((pagination.value.page || 1) + 1)`. -/
def handleNextPage (p : Pagination) : Navigation :=
  goToPage p (jsOrInt p.page 1 + 1)

/-- The `meta` object of the server payload, each field as seen through
`Number(...)` plus `Number.isFinite`: `none` means the coercion was not a
finite number. -/
structure Meta where
  total : Option Int
  per_page : Option Int
  pages : Option Int
  page : Option Int
deriving Repr, DecidableEq

/-- Source: `Math.ceil(a / b)` for a positive integer divisor `b` (the only case
the code reaches: `resolvedPerPage` comes from a `> 0` branch or the
positive constant fallback). -/
def jsCeilDiv (a b : Int) : Int :=
  -((-a) / b)

/-- Source: `resolvedTotal`: `Number.isFinite(totalItemsRaw) ? totalItemsRaw :
rawItems.length`. -/
def resolvedTotalOf (meta : Meta) (rawLen : Int) : Int :=
  match meta.total with
  | some t => t
  | none => rawLen

/-- Source: `resolvedPerPage`: the meta value when finite and positive, else
`filters.per_page || SITES_PER_PAGE`. -/
def resolvedPerPageOf (meta : Meta) (filters : Filters) : Int :=
  match meta.per_page with
  | some pp => if 0 < pp then pp else jsOrInt filters.per_page SITES_PER_PAGE
  | none => jsOrInt filters.per_page SITES_PER_PAGE

/-- Source: `resolvedPages`: the meta value when finite and positive, else
`Math.max(1, Math.ceil((resolvedTotal || 0) / resolvedPerPage))`. -/
def resolvedPagesOf (meta : Meta) (rawLen : Int) (filters : Filters) : Int :=
  match meta.pages with
  | some pg =>
    if 0 < pg then pg
    else max 1 (jsCeilDiv (jsOrInt (resolvedTotalOf meta rawLen) 0) (resolvedPerPageOf meta filters))
  | none =>
    max 1 (jsCeilDiv (jsOrInt (resolvedTotalOf meta rawLen) 0) (resolvedPerPageOf meta filters))

/-- Source: `currentPage`: the meta value when finite and positive, else
`filters.page || 1`. -/
def currentPageOf (meta : Meta) (filters : Filters) : Int :=
  match meta.page with
  | some mp => if 0 < mp then mp else jsOrInt filters.page 1
  | none => jsOrInt filters.page 1

/-- Tail of the fetch `watchEffect`: either the overflow redirect
(`router.push` towards `Math.max(1, resolvedPages)` and `return`) or the
assignment of the `pagination` ref. -/
inductive PaginationStep where
  | redirect (page : Int)
  | setPagination (p : Pagination)
deriving Repr, DecidableEq

/-- Lines 345–381 of `SiteListView.vue`: resolve the metadata, and if the
current page exceeds the resolved page count, redirect; otherwise store
the resolved pagination. -/
def applyPaginationMeta (meta : Meta) (rawLen : Int) (filters : Filters) : PaginationStep :=
  if resolvedPagesOf meta rawLen filters < currentPageOf meta filters then
    .redirect (max 1 (resolvedPagesOf meta rawLen filters))
  else
    .setPagination ⟨currentPageOf meta filters, resolvedPerPageOf meta filters,
      resolvedTotalOf meta rawLen, resolvedPagesOf meta rawLen filters⟩

/-! ## The sites fetch `watchEffect` (happy path and error branch) -/

/-- Source: `hydrateFromSites(sites)` (`stores/auth.js` lines 139–161): fold the
`is_favorite` flags of a fetched page into `favoriteIds`. -/
def hydrateFromSites (s : FavoritesState) (sites : List Site) : FavoritesState :=
  if sites.length == 0 then s
  else
    { s with
      favoriteIds :=
        sites.foldl
          (fun current site =>
            match normalizeId site.id with
            | none => current
            | some id =>
              if !(id == 0) then
                let flag := site.is_favorite <|> site.isFavorite
                if flag == some true && !(current.contains id) then current ++ [id]
                else if flag == some false && current.contains id then
                  current.filter (fun existing => !(existing == id))
                else current
              else current)
          s.favoriteIds }

/-- The field-fallback normalization applied to each kept site before it
is stored in `sites.value` (`mappedItems`, lines 331–342). -/
def mapFetchedSite (site : Site) : Site :=
  { site with
    state_of_conservation :=
      site.state_of_conservation <|> site.conservation_status <|> site.conservationStatus
    category := site.category <|> site.category_name <|> site.categoryName
    inaguration_year :=
      site.inaguration_year <|> site.inauguration_year <|> site.inaugYear
    is_favorite := some ((site.is_favorite <|> site.isFavorite).getD false) }

/-- Component state touched by the sites fetch `watchEffect`. -/
structure SitesViewState where
  sites : List Site
  pagination : Pagination
  error : Option String
  loading : Bool
deriving Repr, DecidableEq

/-- Outcome of the `await fetch(.../sites?...)`: the promise rejected
with some error message, or a response arrived whose JSON payload has a
`data` array and a `meta` object. -/
inductive SitesResponse where
  | netError (message : String)
  | success (status : Nat) (data : List Site) (meta : Meta)
deriving Repr, DecidableEq

/-- A response the `watchEffect` treats as failed: a rejected fetch, or a
non-OK HTTP status (which the code turns into a thrown
`Error('Error ...')`). -/
def sitesFetchFailed : SitesResponse → Bool
  | .netError _ => true
  | .success status _ _ => !(responseOk status)

/-- Everything observable about one run of the sites fetch
`watchEffect`. -/
structure SitesFetchResult where
  view : SitesViewState
  favorites : FavoritesState
  redirectTo : Option Int
  requestsIssued : Nat
  rethrown : Bool
deriving Repr, DecidableEq

/-- One run of the sites fetch `watchEffect` (`SiteListView.vue` lines
242–393) against a given response.  Exactly one `fetch` is issued; the
`catch` branch records `err.message || 'No se pudo obtener la
información'` and resets the pagination; the `finally` clause clears
`loading`; nothing is rethrown. -/
def runSitesFetch (filters : Filters) (authenticated : Bool) (favorites : FavoritesState)
    (prev : SitesViewState) (resp : SitesResponse) : SitesFetchResult :=
  match resp with
  | .netError message =>
    { view :=
        { prev with
          error := some (if strTruthy message then message else "No se pudo obtener la información")
          pagination := ⟨1, SITES_PER_PAGE, 0, 1⟩
          loading := false }
      favorites := favorites
      redirectTo := none
      requestsIssued := 1
      rethrown := false }
  | .success status data meta =>
    if !(responseOk status) then
      { view :=
          { prev with
            error := some ("Error " ++ toString status)
            pagination := ⟨1, SITES_PER_PAGE, 0, 1⟩
            loading := false }
        favorites := favorites
        redirectTo := none
        requestsIssued := 1
        rethrown := false }
    else
      let filtered := clientFilteredItems filters authenticated favorites data
      let favorites1 := hydrateFromSites favorites filtered
      let mapped := filtered.map mapFetchedSite
      match applyPaginationMeta meta (data.length : Int) filters with
      | .redirect targetPage =>
        { view := { prev with sites := mapped, error := none, loading := false }
          favorites := favorites1
          redirectTo := some targetPage
          requestsIssued := 1
          rethrown := false }
      | .setPagination p =>
        { view := { prev with sites := mapped, pagination := p, error := none, loading := false }
          favorites := favorites1
          redirectTo := none
          requestsIssued := 1
          rethrown := false }

/-! ## Review form validation (`SiteDetailView.vue`) -/

/-- Source: `const REVIEW_MIN_LENGTH = 20`. -/
def REVIEW_MIN_LENGTH : Nat := 20

/-- Source: `const REVIEW_MAX_LENGTH = 1000`. -/
def REVIEW_MAX_LENGTH : Nat := 1000

/-- Source: `Number(reviewForm.rating)`: a finite number (a rational, so that
`Number.isInteger` is meaningful) or `NaN`. -/
inductive JsNumber where
  | val (q : ℚ)
  | nan
deriving Repr, DecidableEq

/-- Source: `Number.isInteger`. -/
def jsIsInteger : JsNumber → Bool
  | .val q => q.den == 1
  | .nan => false

/-- Source: `x < m` on a possibly-NaN number (every comparison with `NaN` is
false). -/
def jsNumLt (x : JsNumber) (m : ℚ) : Bool :=
  match x with
  | .val q => q < m
  | .nan => false

/-- Source: `x > m` on a possibly-NaN number. -/
def jsNumGt (x : JsNumber) (m : ℚ) : Bool :=
  match x with
  | .val q => m < q
  | .nan => false

/-- Result of `validateReviewForm()`: the per-field error messages (the
`errors` object), `isValid`, and the trimmed comment. -/
structure ReviewValidation where
  ratingError : Option String
  commentError : Option String
  isValid : Bool
  cleanComment : String
deriving Repr, DecidableEq

/-- Source: `validateReviewForm()` (`SiteDetailView.vue` lines 317–337),
clause for clause. -/
def validateReviewForm (rating : JsNumber) (comment : String) : ReviewValidation :=
  let ratingError :=
    if !(jsIsInteger rating) || jsNumLt rating 1 || jsNumGt rating 5 then
      some "Elegí un puntaje entre 1 y 5."
    else none
  let cleanComment := jsTrim comment
  let commentError :=
    if !(strTruthy cleanComment) then
      some "Escribí una reseña de al menos 20 caracteres."
    else if cleanComment.length < REVIEW_MIN_LENGTH then
      some "Tu reseña debe tener al menos 20 caracteres."
    else if REVIEW_MAX_LENGTH < cleanComment.length then
      some "La reseña no puede superar los 1000 caracteres."
    else none
  { ratingError := ratingError
    commentError := commentError
    isValid := ratingError == none && commentError == none
    cleanComment := cleanComment }

/-- Observable outcome of `handleReviewSubmit()` up to the point where a
request is (or is not) issued. -/
structure ReviewSubmitOutcome where
  requestSent : Bool
  ratingError : Option String
  commentError : Option String
  promptedLogin : Bool
deriving Repr, DecidableEq

/-- The guard section of `handleReviewSubmit()` (`SiteDetailView.vue`
lines 354–367): no site id → return; unauthenticated → login prompt and
return; invalid form → the validation errors stay set and no request;
valid form → errors cleared and the `fetch` is issued.  `prevRatingError`
and `prevCommentError` are the `reviewErrors` contents before the call
(left in place by the early returns). -/
def handleReviewSubmit (hasSiteId authenticated : Bool) (rating : JsNumber) (comment : String)
    (prevRatingError prevCommentError : Option String) : ReviewSubmitOutcome :=
  if !hasSiteId then
    ⟨false, prevRatingError, prevCommentError, false⟩
  else if !authenticated then
    ⟨false, prevRatingError, prevCommentError, true⟩
  else
    let v := validateReviewForm rating comment
    if !v.isValid then ⟨false, v.ratingError, v.commentError, false⟩
    else ⟨true, none, none, false⟩

/-- Spec-side: the rating is an integer between 1 and 5. -/
def specRatingOk (rating : JsNumber) : Bool :=
  match rating with
  | .val q => q.den == 1 && decide ((1 : ℚ) ≤ q) && decide (q ≤ (5 : ℚ))
  | .nan => false

/-- Spec-side: the trimmed comment is between 20 and 1000 characters
long. -/
def specCommentOk (comment : String) : Bool :=
  decide (20 ≤ (jsTrim comment).length) && decide ((jsTrim comment).length ≤ 1000)

/-- Spec-side restatement of the claimed submission bounds: the rating is
an integer between 1 and 5 and the trimmed comment is between 20 and 1000
characters long. -/
def specReviewBoundsOk (rating : JsNumber) (comment : String) : Bool :=
  specRatingOk rating && specCommentOk comment

/-! ## Cover-image validation (`SiteListView.vue`, proposal form) -/

/-- Source: `const MAX_IMAGE_SIZE_BYTES = 5 * 1024 * 1024`. -/
def MAX_IMAGE_SIZE_BYTES : Nat := 5 * 1024 * 1024

/-- Source: `const ALLOWED_IMAGE_TYPES = ['image/jpeg', 'image/png',
'image/webp']`. -/
def ALLOWED_IMAGE_TYPES : List String := ["image/jpeg", "image/png", "image/webp"]

/-- The `type` and `size` of a chosen `File`. -/
structure JsFile where
  type : String
  size : Nat
deriving Repr, DecidableEq

/-- State touched by `handleImageChange`: the selected file, the error
message, and whether a preview object URL is held. -/
structure ImageSelection where
  coverImageFile : Option JsFile
  coverImageError : String
  hasPreview : Bool
deriving Repr, DecidableEq

/-- Source: `handleImageChange(event)` (`SiteListView.vue` lines 1174–1194):
clear the error, take the first chosen file, reject disallowed MIME types
then oversized files (clearing the selection but preserving the message),
otherwise keep the file and create a preview. -/
def handleImageChange (files : List JsFile) : ImageSelection :=
  match files.head? with
  | none => ⟨none, "", false⟩
  | some file =>
    if !(ALLOWED_IMAGE_TYPES.contains file.type) then
      ⟨none, "El archivo debe ser JPG, PNG o WEBP.", false⟩
    else if MAX_IMAGE_SIZE_BYTES < file.size then
      ⟨none, "La imagen no puede superar los 5 MB.", false⟩
    else ⟨some file, "", true⟩

/-! ## Hero banner search history (HeroBanner component) -/

/-- Source: `const HISTORY_KEY = 'portal_search_history'`. -/
def HISTORY_KEY : String := "portal_search_history"

/-- Source: `saveTerm(term)`: new term first, previous case-insensitive
duplicates removed, at most 6 entries kept. -/
def saveTerm (history : List String) (term : String) : List String :=
  (term :: history.filter (fun item => !(jsToLower item == jsToLower term))).take 6

/-- Component state of the hero banner search bar. -/
structure HeroSearchState where
  searchTerm : String
  searchHistory : List String
  showHistory : Bool
deriving Repr, DecidableEq

/-- Observable outcome of `handleSubmit()`: the new component state, the
`localStorage.setItem` write (key and stored list) if any, and the
emitted `search` event payload if any. -/
structure HeroSubmitOutcome where
  state : HeroSearchState
  storageWrite : Option (String × List String)
  emittedSearch : Option String
deriving Repr, DecidableEq

/-- Source: `handleSubmit()` of the hero banner: empty trimmed term → just reveal
the history dropdown when non-empty; otherwise `saveTerm`, emit the
`search` event and hide the dropdown. -/
def heroHandleSubmit (st : HeroSearchState) : HeroSubmitOutcome :=
  let term := jsTrim st.searchTerm
  if !(strTruthy term) then
    ⟨{ st with showHistory := if 0 < st.searchHistory.length then true else st.showHistory },
      none, none⟩
  else
    let history := saveTerm st.searchHistory term
    ⟨{ st with searchHistory := history, showHistory := false },
      some (HISTORY_KEY, history), some term⟩

/-- What `localStorage.getItem(HISTORY_KEY)` yields, as seen through
`JSON.parse(stored || '[]')`: the key is absent (`null`, so `'[]'` is
parsed), the stored text is not valid JSON (`JSON.parse` throws), it is a
JSON array of strings, or it is some other JSON value. -/
inductive StoredValue where
  | absent
  | invalid
  | array (xs : List String)
  | otherJson
deriving Repr, DecidableEq

/-- The `onMounted` restore of the hero banner: parse the stored value;
an array is truncated with `slice(0, 6)`; a parse failure is caught and
yields `[]`; an absent key parses `'[]'` to the empty array; any other
JSON value fails the `Array.isArray` check and leaves the initial `[]`
in place. -/
def restoreHistory : StoredValue → List String
  | .absent => List.take 6 []
  | .invalid => []
  | .array xs => xs.take 6
  | .otherJson => []

/-! ## Helper lemmas about the string normalizations -/

/-- A character whose code point exceeds 32 is not whitespace. -/
theorem not_isWhitespace_of_toNat_gt (d : Char) (m : Nat) (hd : d.toNat = m) (hlo : 32 < m) :
    d.isWhitespace = false := by
  have h1 : d ≠ ' ' := by
    intro hEq; rw [hEq, show Char.toNat ' ' = 32 from by decide] at hd; omega
  have h2 : d ≠ '\t' := by
    intro hEq; rw [hEq, show Char.toNat '\t' = 9 from by decide] at hd; omega
  have h3 : d ≠ '\x0d' := by
    intro hEq; rw [hEq, show Char.toNat '\x0d' = 13 from by decide] at hd; omega
  have h4 : d ≠ '\n' := by
    intro hEq; rw [hEq, show Char.toNat '\n' = 10 from by decide] at hd; omega
  simp [Char.isWhitespace, h1, h2, h3, h4]

/-- Lower-casing does not change whether a character is whitespace. -/
theorem isWhitespace_toLower (c : Char) : (Char.toLower c).isWhitespace = c.isWhitespace := by
  have key : ∀ (n : Nat) (h : n.isValidChar), (Char.ofNatAux n h).toNat = n := by
    intro n h
    simp [Char.ofNatAux, Char.toNat, UInt32.toNat, BitVec.toNat_ofNatLt]
  unfold Char.toLower
  by_cases h : c.toNat ≥ 65 ∧ c.toNat ≤ 90
  · simp only [h, and_self, if_true]
    obtain ⟨h1, h2⟩ := h
    have hvalid : (c.toNat + 32).isValidChar := Or.inl (by omega)
    have hval : (Char.ofNat (c.toNat + 32)).toNat = c.toNat + 32 := by
      rw [Char.ofNat, dif_pos hvalid]; exact key _ _
    rw [not_isWhitespace_of_toNat_gt _ _ hval (by omega),
      not_isWhitespace_of_toNat_gt c c.toNat rfl (by omega)]
  · simp [h]

/-- A string is empty exactly when its character list is. -/
theorem str_eq_empty_iff (s : String) : s = "" ↔ s.data = [] := by
  rw [String.ext_iff]

/-- The character list of a compacted string. -/
theorem compactWs_data (s : String) :
    (compactWs s).data = s.data.filter (fun c => !c.isWhitespace) := rfl

/-- Lemma: `includes` is preserved by dropping whitespace on both sides. -/
theorem jsIncludes_compactWs {text pat : String} (h : jsIncludes text pat = true) :
    jsIncludes (compactWs text) (compactWs pat) = true := by
  simp only [jsIncludes, decide_eq_true_iff] at h ⊢
  exact List.IsInfix.filter _ h

/-- Compacting commutes with lower-casing. -/
theorem compactWs_jsToLower (s : String) :
    compactWs (jsToLower s) = jsToLower (compactWs s) := by
  apply String.ext
  show (s.data.map Char.toLower).filter (fun c => !c.isWhitespace)
      = ((s.data.filter (fun c => !c.isWhitespace)).map Char.toLower)
  have hp : ((fun c => !c.isWhitespace) ∘ Char.toLower) = (fun c : Char => !c.isWhitespace) := by
    funext c; simp [Function.comp, isWhitespace_toLower]
  rw [List.filter_map, hp]

/-- Lower-casing preserves emptiness. -/
theorem jsToLower_eq_empty_iff (s : String) : jsToLower s = "" ↔ s = "" := by
  rw [str_eq_empty_iff, str_eq_empty_iff]
  show s.data.map Char.toLower = [] ↔ s.data = []
  exact List.map_eq_nil_iff

/-- A non-empty trimmed string still has a non-whitespace character
after compacting (its leading character survives the filter). -/
theorem compactWs_jsTrim_ne (s : String) (h : jsTrim s ≠ "") : compactWs (jsTrim s) ≠ "" := by
  rw [Ne, str_eq_empty_iff, compactWs_data] at *
  intro hfil
  rw [List.filter_eq_nil_iff] at hfil
  set r := (s.data.dropWhile Char.isWhitespace).reverse.dropWhile Char.isWhitespace with hr
  have hrne : r ≠ [] := by
    intro hnil
    apply h
    show r.reverse = []
    rw [hnil]; rfl
  have hhead : Char.isWhitespace (r.head hrne) = false :=
    List.head_dropWhile_not Char.isWhitespace _ hrne
  have hmem : r.head hrne ∈ (jsTrim s).data := by
    show r.head hrne ∈ r.reverse
    rw [List.mem_reverse]
    exact List.head_mem hrne
  have := hfil _ hmem
  simp [hhead] at this

/-- The lowered trim of `q`, when non-empty, has a non-empty compact
form. -/
theorem compactWs_norm_ne (q : String) (h : jsToLower (jsTrim q) ≠ "") :
    compactWs (jsToLower (jsTrim q)) ≠ "" := by
  rw [compactWs_jsToLower, Ne, jsToLower_eq_empty_iff]
  apply compactWs_jsTrim_ne
  intro hq
  exact h (by rw [hq]; rfl)

/-- When the compacted needle is non-empty, the filter's disjunction
(plain `includes`, or compacted `includes` guarded on a truthy compacted
needle) collapses to the compacted `includes`. -/
theorem includes_or_compact (t s : String) (hc : compactWs s ≠ "") :
    (jsIncludes t s || (strTruthy (compactWs s) && jsIncludes (compactWs t) (compactWs s)))
      = jsIncludes (compactWs t) (compactWs s) := by
  have hstr : strTruthy (compactWs s) = true := by simp [strTruthy, hc]
  rw [hstr, Bool.true_and]
  cases h : jsIncludes t s
  · rw [Bool.false_or]
  · rw [Bool.true_or]; exact (jsIncludes_compactWs h).symm

/-- Pointwise: with a non-empty normalized search, the code's
`matchesText` is the whitespace-insensitive, case-insensitive substring
test of the specification. -/
theorem codeMatchesText_eq (q : String) (h : jsToLower (jsTrim q) ≠ "") (value : Option String) :
    codeMatchesText (jsToLower (jsTrim q)) (compactWs (jsToLower (jsTrim q))) value
      = looseSubstring (jsToLower (jsTrim q)) (value.getD "") := by
  have hc := compactWs_norm_ne q h
  have hT : strTruthy (jsToLower (jsTrim q)) = true := by simp [strTruthy, h]
  unfold codeMatchesText looseSubstring
  simp only [hT, Bool.not_true, if_false]
  exact includes_or_compact _ _ hc

/-- The free-text clause of the filter equals the specification's
free-text clause. -/
theorem searchClause_eq (q : String) (fields : List (Option String)) :
    (!(strTruthy (jsToLower (jsTrim q))) ||
        fields.any (codeMatchesText (jsToLower (jsTrim q)) (compactWs (jsToLower (jsTrim q)))))
      = ((jsToLower (jsTrim q) == "") ||
          fields.any (fun value => looseSubstring (jsToLower (jsTrim q)) (value.getD ""))) := by
  by_cases h : jsToLower (jsTrim q) = ""
  · simp [strTruthy, h]
  · have hT : strTruthy (jsToLower (jsTrim q)) = true := by simp [strTruthy, h]
    have hbe : (jsToLower (jsTrim q) == "") = false := by simp [h]
    rw [hT, hbe]
    simp only [Bool.not_true, Bool.false_or]
    congr 1
    funext value
    exact codeMatchesText_eq q h value

/-- The city/province clause of the filter equals the specification's
substring clause. -/
theorem substrClause_eq (c t : String) :
    (!(strTruthy (jsToLower (jsTrim c))) || jsIncludes (jsToLower t) (jsToLower (jsTrim c)) ||
        (strTruthy (compactWs (jsToLower (jsTrim c))) &&
          jsIncludes (compactWs (jsToLower t)) (compactWs (jsToLower (jsTrim c)))))
      = ((jsToLower (jsTrim c) == "") || looseSubstring (jsToLower (jsTrim c)) t) := by
  by_cases h : jsToLower (jsTrim c) = ""
  · simp [strTruthy, h]
  · have hc := compactWs_norm_ne c h
    have hT : strTruthy (jsToLower (jsTrim c)) = true := by simp [strTruthy, h]
    have hbe : (jsToLower (jsTrim c) == "") = false := by simp [h]
    rw [hT, hbe]
    simp only [Bool.not_true, Bool.false_or, Bool.or_assoc]
    unfold looseSubstring
    exact includes_or_compact _ _ hc

/-- The status clause: string truthiness spelled with `== ""`. -/
theorem statusClause_eq (st siteStatus : String) :
    (!(strTruthy (jsToLower (jsTrim st))) || siteStatus == jsToLower (jsTrim st))
      = ((jsToLower (jsTrim st) == "") || siteStatus == jsToLower (jsTrim st)) := by
  simp [strTruthy, Bool.not_not]

/-- The per-site predicate of the source filter coincides with the
specification's conjunction of per-filter matches. -/
theorem codeSitePredicate_eq_spec (filters : Filters) (authenticated : Bool)
    (favorites : FavoritesState) (site : Site) :
    codeSitePredicate filters authenticated favorites site
      = specSiteMatches filters authenticated favorites site := by
  simp only [codeSitePredicate, specSiteMatches, specFreeTextMatch, specCityMatch,
    specProvinceMatch, specStatusMatch, specTagsMatch, specFavoritesMatch,
    searchClause_eq, substrClause_eq, statusClause_eq]

/-! ## Helper lemmas about the favorites store -/

/-- Lemma: `setPending` never touches `favoriteIds`. -/
theorem setPending_favoriteIds (s : FavoritesState) (siteId : JsVal) (v : Bool) :
    (setPending s siteId v).favoriteIds = s.favoriteIds := by
  unfold setPending
  cases hn : normalizeId siteId
  · rfl
  · dsimp only
    split_ifs <;> rfl

/-- After `setPending(id, false)`, `id` is not in `pendingIds`. -/
theorem setPending_false_clears (s : FavoritesState) (id : Int) (h0 : id ≠ 0) :
    (setPending s (JsVal.num id) false).pendingIds.contains id = false := by
  unfold setPending normalizeId
  simp [h0]

/-- After `setPending(id, true)` on a non-pending store, `id` is
pending. -/
theorem setPending_true_marks (s : FavoritesState) (id : Int) (h0 : id ≠ 0) :
    isPending (setPending s (JsVal.num id) true) (JsVal.num id) = true := by
  unfold setPending isPending normalizeId
  by_cases hp : id ∈ s.pendingIds <;> simp [h0, hp]

/-- Lemma: `applyFavorite` on a valid id flips membership to the requested
value. -/
theorem applyFavorite_contains (s : FavoritesState) (id : Int) (sf : Bool) (h0 : id ≠ 0) :
    (applyFavorite s (JsVal.num id) sf).favoriteIds.contains id = sf := by
  unfold applyFavorite normalizeId
  cases sf <;> by_cases hf : s.favoriteIds.contains id = true <;> simp_all


/-- After `setPending(id, false)`, `id` is not a member of
`pendingIds`. -/
theorem not_mem_setPending_false (s : FavoritesState) (id : Int) (h0 : id ≠ 0) :
    id ∉ (setPending s (JsVal.num id) false).pendingIds := by
  unfold setPending normalizeId
  simp [h0]

/-- Lemma: `isPending` is `false` when the id is absent from `pendingIds`. -/
theorem isPending_false_of_not_contains (s : FavoritesState) (id : Int) (h0 : id ≠ 0)
    (hp : s.pendingIds.contains id = false) : isPending s (JsVal.num id) = false := by
  unfold isPending normalizeId
  simp [h0]
  simpa using hp

/-- Lemma: `setFavorite` on a valid, non-pending id with a thrown fetch. -/
theorem setFavorite_eq_thrown (s : FavoritesState) (id : Int) (b : Bool) (h0 : id ≠ 0)
    (hnp : isPending s (JsVal.num id) = false) :
    setFavorite s (JsVal.num id) b FetchResult.thrown
      = ⟨setPending (setPending s (JsVal.num id) true) (JsVal.num id) false,
          .error .network, true⟩ := by
  simp [setFavorite, normalizeId, h0, hnp]

/-- Lemma: `setFavorite` on a valid, non-pending id with a 401 response. -/
theorem setFavorite_eq_unauthorized (s : FavoritesState) (id : Int) (b : Bool) (code : Nat)
    (h0 : id ≠ 0) (hnp : isPending s (JsVal.num id) = false) (h401 : (code == 401) = true) :
    setFavorite s (JsVal.num id) b (FetchResult.status code)
      = ⟨setPending (setPending s (JsVal.num id) true) (JsVal.num id) false,
          .error .unauthorized, true⟩ := by
  simp [setFavorite, normalizeId, h0, hnp, h401]

/-- Lemma: `setFavorite` on a valid, non-pending id with a non-ok, non-204,
non-401 response. -/
theorem setFavorite_eq_failed (s : FavoritesState) (id : Int) (b : Bool) (code : Nat)
    (h0 : id ≠ 0) (hnp : isPending s (JsVal.num id) = false) (h401 : (code == 401) = false)
    (hfail : (!(responseOk code) && !(code == 204)) = true) :
    setFavorite s (JsVal.num id) b (FetchResult.status code)
      = ⟨setPending (setPending s (JsVal.num id) true) (JsVal.num id) false,
          .error .favoriteFailed, true⟩ := by
  simp [setFavorite, normalizeId, h0, hnp, h401, hfail]

/-- Lemma: `setFavorite` on a valid, non-pending id with a successful
response. -/
theorem setFavorite_eq_success (s : FavoritesState) (id : Int) (b : Bool) (code : Nat)
    (h0 : id ≠ 0) (hnp : isPending s (JsVal.num id) = false) (h401 : (code == 401) = false)
    (hfail : (!(responseOk code) && !(code == 204)) = false) :
    setFavorite s (JsVal.num id) b (FetchResult.status code)
      = ⟨setPending (applyFavorite (setPending s (JsVal.num id) true) (JsVal.num id) b)
            (JsVal.num id) false,
          .ok b, true⟩ := by
  simp [setFavorite, normalizeId, h0, hnp, h401, hfail]

/-- On a successful status, the 401 guard is false. -/
theorem favSucceeds_not_401 (code : Nat)
    (hs : favRequestSucceeds (FetchResult.status code) = true) : (code == 401) = false := by
  by_contra hcon
  rw [Bool.not_eq_false] at hcon
  simp [favRequestSucceeds, hcon] at hs

/-- On a successful status, the failure guard is false. -/
theorem favSucceeds_not_failed (code : Nat)
    (hs : favRequestSucceeds (FetchResult.status code) = true) :
    (!(responseOk code) && !(code == 204)) = false := by
  simp only [favRequestSucceeds, Bool.and_eq_true, Bool.or_eq_true] at hs
  rcases hs.2 with h | h <;> simp [h]

/-- On a failed (but delivered) status that is not 401, the failure
guard holds. -/
theorem favFailed_guard (code : Nat)
    (hs : favRequestSucceeds (FetchResult.status code) = false) (h401 : (code == 401) = false) :
    (!(responseOk code) && !(code == 204)) = true := by
  simp only [favRequestSucceeds, Bool.and_eq_false_iff] at hs
  rcases hs with h | h
  · simp [h401] at h
  · simp only [Bool.or_eq_false_iff] at h
    simp [h.1, h.2]

/-! ## Claims about favorite toggling (C1, C9, C10) -/

/-- C1 counterexample: toggling site id 1 on an empty, idle favorites
store leaves `favoriteIds` empty when the server answers 500 and adds the
id when it answers 200 — the local favorite set is not updated
optimistically; the update is conditioned on a successful server
response. -/
theorem toggleFavorite_not_optimistic_cex :
    isFavorite ⟨[], []⟩ (JsVal.num 1) = false ∧
    (toggleFavorite ⟨[], []⟩ (JsVal.num 1) (FetchResult.status 500)).requestSent = true ∧
    (toggleFavorite ⟨[], []⟩ (JsVal.num 1) (FetchResult.status 500)).state.favoriteIds = [] ∧
    (toggleFavorite ⟨[], []⟩ (JsVal.num 1) (FetchResult.status 200)).state.favoriteIds = [1] := by
  decide

/-- C1 (amended): for every valid site id that is not already pending,
`toggleFavorite` marks the id pending while the request is in flight and
clears it afterwards; it flips the id's membership in `favoriteIds`
exactly when the server responds successfully, and leaves `favoriteIds`
untouched on a failed response or a thrown fetch, so no rollback ever
occurs. -/
theorem toggleFavorite_pending_and_commit (s : FavoritesState) (id : Int) (resp : FetchResult)
    (h0 : id ≠ 0) (hp : s.pendingIds.contains id = false) :
    isPending (setPending s (JsVal.num id) true) (JsVal.num id) = true ∧
    id ∉ (toggleFavorite s (JsVal.num id) resp).state.pendingIds ∧
    (favRequestSucceeds resp = true →
      (toggleFavorite s (JsVal.num id) resp).state.favoriteIds.contains id
        = !(s.favoriteIds.contains id)) ∧
    (favRequestSucceeds resp = false →
      (toggleFavorite s (JsVal.num id) resp).state.favoriteIds = s.favoriteIds) := by
  have hnp := isPending_false_of_not_contains s id h0 hp
  refine ⟨setPending_true_marks s id h0, ?_, ?_, ?_⟩
  · unfold toggleFavorite
    cases resp with
    | thrown =>
      rw [setFavorite_eq_thrown s id _ h0 hnp]
      exact not_mem_setPending_false _ _ h0
    | status code =>
      by_cases h401 : (code == 401) = true
      · rw [setFavorite_eq_unauthorized s id _ code h0 hnp h401]
        exact not_mem_setPending_false _ _ h0
      · rw [Bool.not_eq_true] at h401
        by_cases hfail : (!(responseOk code) && !(code == 204)) = true
        · rw [setFavorite_eq_failed s id _ code h0 hnp h401 hfail]
          exact not_mem_setPending_false _ _ h0
        · rw [Bool.not_eq_true] at hfail
          rw [setFavorite_eq_success s id _ code h0 hnp h401 hfail]
          exact not_mem_setPending_false _ _ h0
  · intro hs
    unfold toggleFavorite
    cases resp with
    | thrown => simp [favRequestSucceeds] at hs
    | status code =>
      rw [setFavorite_eq_success s id _ code h0 hnp (favSucceeds_not_401 code hs)
        (favSucceeds_not_failed code hs)]
      show (setPending _ _ _).favoriteIds.contains id = _
      rw [setPending_favoriteIds, applyFavorite_contains _ _ _ h0]
      simp [isFavorite, normalizeId, h0]
  · intro hs
    unfold toggleFavorite
    cases resp with
    | thrown =>
      rw [setFavorite_eq_thrown s id _ h0 hnp]
      show (setPending (setPending _ _ _) _ _).favoriteIds = _
      rw [setPending_favoriteIds, setPending_favoriteIds]
    | status code =>
      by_cases h401 : (code == 401) = true
      · rw [setFavorite_eq_unauthorized s id _ code h0 hnp h401]
        show (setPending (setPending _ _ _) _ _).favoriteIds = _
        rw [setPending_favoriteIds, setPending_favoriteIds]
      · rw [Bool.not_eq_true] at h401
        rw [setFavorite_eq_failed s id _ code h0 hnp h401 (favFailed_guard code hs h401)]
        show (setPending (setPending _ _ _) _ _).favoriteIds = _
        rw [setPending_favoriteIds, setPending_favoriteIds]

/-- C1 witness: the amended statement at a concrete input — a store
holding favorite 7, toggling id 7 with a successful 204 response flips
the membership off; all hypotheses discharged by evaluation. -/
theorem toggleFavorite_pending_and_commit_witness :
    (7 : Int) ≠ 0 ∧ (FavoritesState.mk [7] []).pendingIds.contains 7 = false ∧
    favRequestSucceeds (FetchResult.status 204) = true ∧
    (toggleFavorite ⟨[7], []⟩ (JsVal.num 7) (FetchResult.status 204)).state.favoriteIds.contains 7
      = !((FavoritesState.mk [7] []).favoriteIds.contains 7) :=
  ⟨by decide, by decide, by decide,
    (toggleFavorite_pending_and_commit ⟨[7], []⟩ 7 (FetchResult.status 204) (by decide)
      (by decide)).2.2.1 (by decide)⟩

/-- Lemma: `setFavorite` on an id that is already pending returns early. -/
theorem setFavorite_eq_pending (s : FavoritesState) (id : Int) (b : Bool) (resp : FetchResult)
    (h0 : id ≠ 0) (hpend : isPending s (JsVal.num id) = true) :
    setFavorite s (JsVal.num id) b resp = ⟨s, .ok (isFavorite s (JsVal.num id)), false⟩ := by
  simp [setFavorite, normalizeId, h0, hpend]

/-- When neither throw guard fires, the fetch outcome counts as
successful. -/
theorem favSucceeds_of_guards (code : Nat) (h401 : (code == 401) = false)
    (hfail : (!(responseOk code) && !(code == 204)) = false) :
    favRequestSucceeds (FetchResult.status code) = true := by
  simp only [favRequestSucceeds, h401, Bool.not_false, Bool.true_and]
  simp only [Bool.and_eq_false_iff] at hfail
  rcases hfail with h | h
  · simp at h
    simp [h]
  · simp at h
    simp [h]

/-- C9: favorite updates are atomic on error — for every valid site id,
when `setFavorite` throws (401, another non-success non-204 status, or a
rejected fetch), `favoriteIds` is exactly what it was before the call and
the id has been removed from `pendingIds` by the `finally` clause; the
local favorite membership changes only when the request succeeded and the
call returned normally. -/
theorem setFavorite_atomic_on_error (s : FavoritesState) (id : Int) (b : Bool)
    (resp : FetchResult) (h0 : id ≠ 0) :
    (∀ e, (setFavorite s (JsVal.num id) b resp).result = .error e →
      (setFavorite s (JsVal.num id) b resp).state.favoriteIds = s.favoriteIds ∧
      id ∉ (setFavorite s (JsVal.num id) b resp).state.pendingIds) ∧
    ((setFavorite s (JsVal.num id) b resp).state.favoriteIds ≠ s.favoriteIds →
      favRequestSucceeds resp = true ∧
      (setFavorite s (JsVal.num id) b resp).result = .ok b) := by
  by_cases hpend : isPending s (JsVal.num id) = true
  · rw [setFavorite_eq_pending s id b resp h0 hpend]
    exact ⟨fun e he => Except.noConfusion he, fun hne => absurd rfl hne⟩
  · have hnp : isPending s (JsVal.num id) = false := by
      rw [Bool.not_eq_true] at hpend; exact hpend
    cases resp with
    | thrown =>
      rw [setFavorite_eq_thrown s id b h0 hnp]
      have hfav : (setPending (setPending s (JsVal.num id) true) (JsVal.num id)
          false).favoriteIds = s.favoriteIds := by
        rw [setPending_favoriteIds, setPending_favoriteIds]
      exact ⟨fun e _ => ⟨hfav, not_mem_setPending_false _ _ h0⟩, fun hne => absurd hfav hne⟩
    | status code =>
      have hfav : (setPending (setPending s (JsVal.num id) true) (JsVal.num id)
          false).favoriteIds = s.favoriteIds := by
        rw [setPending_favoriteIds, setPending_favoriteIds]
      by_cases h401 : (code == 401) = true
      · rw [setFavorite_eq_unauthorized s id b code h0 hnp h401]
        exact ⟨fun e _ => ⟨hfav, not_mem_setPending_false _ _ h0⟩, fun hne => absurd hfav hne⟩
      · rw [Bool.not_eq_true] at h401
        by_cases hfail : (!(responseOk code) && !(code == 204)) = true
        · rw [setFavorite_eq_failed s id b code h0 hnp h401 hfail]
          exact ⟨fun e _ => ⟨hfav, not_mem_setPending_false _ _ h0⟩,
            fun hne => absurd hfav hne⟩
        · rw [Bool.not_eq_true] at hfail
          rw [setFavorite_eq_success s id b code h0 hnp h401 hfail]
          exact ⟨fun e he => Except.noConfusion he, fun _ => ⟨favSucceeds_of_guards code h401 hfail, rfl⟩⟩

/-- C9 witness: a 500 response on a store holding favorite 5 leaves the
favorite set `[5]` and clears the pending flag. -/
theorem setFavorite_atomic_on_error_witness :
    (5 : Int) ≠ 0 ∧
    ((setFavorite ⟨[5], []⟩ (JsVal.num 5) true (FetchResult.status 500)).state.favoriteIds
        = (FavoritesState.mk [5] []).favoriteIds ∧
      5 ∉ (setFavorite ⟨[5], []⟩ (JsVal.num 5) true (FetchResult.status 500)).state.pendingIds) :=
  ⟨by decide,
    (setFavorite_atomic_on_error ⟨[5], []⟩ 5 true (FetchResult.status 500) (by decide)).1
      FavError.favoriteFailed (by decide)⟩

/-- C10: ids whose numeric coercion is not finite, and the id 0, are
rejected uniformly — `isFavorite` and `isPending` answer `false`,
`setPending` and `applyFavorite` leave the store unchanged, and
`setFavorite` throws the `'ID inválido'` error without issuing any
request. -/
theorem favorites_invalid_id_rejected (s : FavoritesState) (v : JsVal) (b sf pv : Bool)
    (resp : FetchResult) (h : idTruthy (normalizeId v) = false) :
    isFavorite s v = false ∧
    isPending s v = false ∧
    setPending s v pv = s ∧
    applyFavorite s v sf = s ∧
    setFavorite s v b resp = ⟨s, .error .idInvalid, false⟩ ∧
    FavError.message FavError.idInvalid = some "ID inválido" := by
  cases v with
  | nonFinite => exact ⟨rfl, rfl, rfl, rfl, rfl, rfl⟩
  | num n =>
    have hn : n = 0 := by simpa [idTruthy, normalizeId] using h
    subst hn
    refine ⟨?_, ?_, ?_, ?_, ?_, rfl⟩ <;>
      simp [isFavorite, isPending, setPending, applyFavorite, setFavorite, normalizeId]

/-- C10 witness: the concrete id 0 on a non-empty store. -/
theorem favorites_invalid_id_rejected_witness :
    idTruthy (normalizeId (JsVal.num 0)) = false ∧
    setFavorite ⟨[3], [4]⟩ (JsVal.num 0) true (FetchResult.status 200)
      = ⟨⟨[3], [4]⟩, .error .idInvalid, false⟩ :=
  ⟨by decide,
    (favorites_invalid_id_rejected ⟨[3], [4]⟩ (JsVal.num 0) true true true
      (FetchResult.status 200) (by decide)).2.2.2.2.1⟩

/-! ## C7: logout always ends the local session -/

/-- C7: whether the HTTP logout request succeeds or throws, after
`logout()` the auth store's user is `null` and the favorites store has
been reset to an empty favorite set and an empty pending list. -/
theorem logout_always_clears_session (a : AuthState) (f : FavoritesState)
    (resp : LogoutResponse) :
    (logout a f resp).auth.user = none ∧
    (logout a f resp).favorites.favoriteIds = [] ∧
    (logout a f resp).favorites.pendingIds = [] := by
  cases resp <;> exact ⟨rfl, rfl, rfl⟩

/-! ## C2: the kept sites are exactly those matching every active filter -/

/-- C2: the sites kept from a fetched page are exactly those matching
every active filter — free-text (whitespace- and case-insensitive
substring over name, city, province and both descriptions), city and
province substring, exact case-insensitive conservation status, the
`all`/`any` tag rule, and the favorites flag for an authenticated
user. -/
theorem clientFilteredItems_eq_spec (filters : Filters) (authenticated : Bool)
    (favorites : FavoritesState) (rawItems : List Site) :
    clientFilteredItems filters authenticated favorites rawItems
      = rawItems.filter (specSiteMatches filters authenticated favorites) := by
  unfold clientFilteredItems
  exact List.filter_congr fun site _ =>
    codeSitePredicate_eq_spec filters authenticated favorites site

/-! ## C3: pagination bookkeeping -/

/-- Lemma: `a || b` for a positive left operand. -/
theorem jsOrInt_of_pos (n d : Int) (h : 1 ≤ n) : jsOrInt n d = n := by
  unfold jsOrInt
  simp only [beq_iff_eq]
  rw [if_neg (by omega)]

/-- The resolved page count is always at least 1. -/
theorem resolvedPagesOf_pos (meta : Meta) (rawLen : Int) (filters : Filters) :
    1 ≤ resolvedPagesOf meta rawLen filters := by
  unfold resolvedPagesOf
  cases meta.pages with
  | none => exact le_max_left 1 _
  | some pg =>
    dsimp only
    split_ifs with h
    · omega
    · exact le_max_left 1 _

/-- C3: the previous-page control is enabled only when `page > 1`, the
next-page control only when `page < pages`; `goToPage` clamps the target
into `[1, pages]` and does not navigate when the clamped target equals
the current page; and when the metadata reports fewer pages than the page
currently requested, the view redirects to the last available page, never
below 1. -/
theorem pagination_bookkeeping_spec (p : Pagination) (target : Int) (meta : Meta)
    (rawLen : Int) (filters : Filters) (hpage : 1 ≤ p.page) (hpages : 1 ≤ p.pages) :
    (canGoPrevPage p = true ↔ 1 < p.page) ∧
    (canGoNextPage p = true ↔ p.page < p.pages) ∧
    (min (max 1 target) p.pages = p.page → goToPage p target = Navigation.stay) ∧
    (min (max 1 target) p.pages ≠ p.page →
      goToPage p target = Navigation.push (min (max 1 target) p.pages) ∧
      1 ≤ min (max 1 target) p.pages ∧ min (max 1 target) p.pages ≤ p.pages) ∧
    (resolvedPagesOf meta rawLen filters < currentPageOf meta filters →
      applyPaginationMeta meta rawLen filters
        = PaginationStep.redirect (resolvedPagesOf meta rawLen filters) ∧
      1 ≤ resolvedPagesOf meta rawLen filters) := by
  refine ⟨?_, ?_, ?_, ?_, ?_⟩
  · unfold canGoPrevPage
    rw [jsOrInt_of_pos _ _ hpage]
    exact decide_eq_true_iff
  · unfold canGoNextPage
    rw [jsOrInt_of_pos _ _ hpage, jsOrInt_of_pos _ _ hpages]
    exact decide_eq_true_iff
  · intro h
    unfold goToPage
    rw [jsOrInt_of_pos _ _ hpages, jsOrInt_of_pos _ _ hpage]
    simp [h]
  · intro h
    unfold goToPage
    rw [jsOrInt_of_pos _ _ hpages, jsOrInt_of_pos _ _ hpage]
    refine ⟨by simp [h], le_min (le_max_left 1 target) hpages, min_le_right _ _⟩
  · intro h
    have hpos := resolvedPagesOf_pos meta rawLen filters
    unfold applyPaginationMeta
    rw [if_pos h, max_eq_right hpos]
    exact ⟨rfl, hpos⟩

/-- C3 witness: page 2 of 3 enables both controls; `goToPage 99` pushes
the clamped page 3; metadata reporting 2 pages while page 5 is requested
redirects to page 2. -/
theorem pagination_bookkeeping_spec_witness :
    (1 : Int) ≤ 2 ∧ (1 : Int) ≤ 3 ∧
    (goToPage ⟨2, 20, 45, 3⟩ 99 = Navigation.push (min (max 1 (99 : Int)) (3 : Int)) ∧
      1 ≤ min (max 1 (99 : Int)) (3 : Int) ∧ min (max 1 (99 : Int)) (3 : Int) ≤ (3 : Int)) ∧
    (applyPaginationMeta ⟨some 45, some 20, some 2, some 5⟩ 0
          ⟨"", "", "", "", false, [], "any", 1, 20⟩
        = PaginationStep.redirect
            (resolvedPagesOf ⟨some 45, some 20, some 2, some 5⟩ 0
              ⟨"", "", "", "", false, [], "any", 1, 20⟩) ∧
      1 ≤ resolvedPagesOf ⟨some 45, some 20, some 2, some 5⟩ 0
            ⟨"", "", "", "", false, [], "any", 1, 20⟩) :=
  ⟨by decide, by decide,
    (pagination_bookkeeping_spec ⟨2, 20, 45, 3⟩ 99 ⟨some 45, some 20, some 2, some 5⟩ 0
      ⟨"", "", "", "", false, [], "any", 1, 20⟩ (by decide) (by decide)).2.2.2.1 (by decide),
    (pagination_bookkeeping_spec ⟨2, 20, 45, 3⟩ 99 ⟨some 45, some 20, some 2, some 5⟩ 0
      ⟨"", "", "", "", false, [], "any", 1, 20⟩ (by decide) (by decide)).2.2.2.2 (by decide)⟩

/-! ## C4: review form validation gates the request -/

/-- The `rating` field error is absent exactly when the rating is an
integer between 1 and 5. -/
theorem ratingError_none_eq (rating : JsNumber) (comment : String) :
    ((validateReviewForm rating comment).ratingError == none) = specRatingOk rating := by
  cases rating with
  | nan => simp [validateReviewForm, specRatingOk, jsIsInteger, jsNumLt, jsNumGt]
  | val q =>
    simp only [validateReviewForm, specRatingOk, jsIsInteger, jsNumLt, jsNumGt]
    by_cases h1 : (q.den == 1) = true <;> by_cases h2 : q < 1 <;> by_cases h3 : (5 : ℚ) < q
    · simp [h1, h2, h3, not_le.mpr h2]
    · simp [h1, h2, h3, not_le.mpr h2]
    · simp [h1, h2, h3, not_le.mpr h3]
    · simp [h1, h2, h3, le_of_not_lt h2, le_of_not_lt h3]
    · simp only [Bool.not_eq_true] at h1
      simp [h1, h2, h3]
    · simp only [Bool.not_eq_true] at h1
      simp [h1, h2, h3]
    · simp only [Bool.not_eq_true] at h1
      simp [h1, h2, h3]
    · simp only [Bool.not_eq_true] at h1
      simp [h1, h2, h3]

/-- The `comment` field error is absent exactly when the trimmed comment
has between 20 and 1000 characters. -/
theorem commentError_none_eq (rating : JsNumber) (comment : String) :
    ((validateReviewForm rating comment).commentError == none) = specCommentOk comment := by
  simp only [validateReviewForm, specCommentOk, strTruthy]
  by_cases h0 : jsTrim comment = ""
  · have hlen : (jsTrim comment).length = 0 := by rw [h0]; rfl
    simp [h0, hlen]
  · have hlen : (jsTrim comment).length ≠ 0 := by
      intro hz
      apply h0
      rw [str_eq_empty_iff]
      exact List.length_eq_zero.mp hz
    by_cases h2 : (jsTrim comment).length < 20
    · simp [h0, h2, not_le.mpr h2, REVIEW_MIN_LENGTH, REVIEW_MAX_LENGTH]
    · by_cases h3 : 1000 < (jsTrim comment).length
      · simp [h0, h2, h3, not_le.mpr h3, REVIEW_MIN_LENGTH, REVIEW_MAX_LENGTH]
      · simp [h0, h2, h3, le_of_not_lt h2, le_of_not_lt h3, REVIEW_MIN_LENGTH,
          REVIEW_MAX_LENGTH]

/-- Lemma: `isValid` equals the claimed bounds check. -/
theorem isValid_eq_bounds (rating : JsNumber) (comment : String) :
    (validateReviewForm rating comment).isValid = specReviewBoundsOk rating comment := by
  have hr := ratingError_none_eq rating comment
  have hc := commentError_none_eq rating comment
  unfold specReviewBoundsOk
  rw [← hr, ← hc]
  rfl

/-- C4: with a loaded site and an authenticated user, submitting the
review form issues the network request exactly when the rating is an
integer between 1 and 5 and the trimmed comment has between 20 and 1000
characters; on any violation no request is issued and the per-field
error messages are set for exactly the violated fields. -/
theorem reviewSubmit_gated_by_validation (rating : JsNumber) (comment : String)
    (prevRatingError prevCommentError : Option String) :
    ((handleReviewSubmit true true rating comment prevRatingError prevCommentError).requestSent
        = true ↔ specReviewBoundsOk rating comment = true) ∧
    (specReviewBoundsOk rating comment = false →
      (handleReviewSubmit true true rating comment prevRatingError
          prevCommentError).requestSent = false ∧
      ((handleReviewSubmit true true rating comment prevRatingError
          prevCommentError).ratingError ≠ none ↔ specRatingOk rating = false) ∧
      ((handleReviewSubmit true true rating comment prevRatingError
          prevCommentError).commentError ≠ none ↔ specCommentOk comment = false)) := by
  have hv := isValid_eq_bounds rating comment
  by_cases hb : specReviewBoundsOk rating comment = true
  · have hvalid : (validateReviewForm rating comment).isValid = true := by rw [hv, hb]
    constructor
    · simp [handleReviewSubmit, hvalid, hb]
    · intro hfalse
      rw [hb] at hfalse
      exact absurd hfalse (by simp)
  · have hbf : specReviewBoundsOk rating comment = false := by
      rw [Bool.not_eq_true] at hb; exact hb
    have hvalid : (validateReviewForm rating comment).isValid = false := by rw [hv, hbf]
    have hout : handleReviewSubmit true true rating comment prevRatingError prevCommentError
        = ⟨false, (validateReviewForm rating comment).ratingError,
            (validateReviewForm rating comment).commentError, false⟩ := by
      simp [handleReviewSubmit, hvalid]
    rw [hout]
    refine ⟨by simp [hbf], fun _ => ⟨rfl, ?_, ?_⟩⟩
    · have := ratingError_none_eq rating comment
      constructor
      · intro hne
        cases hre : (validateReviewForm rating comment).ratingError with
        | none => exact absurd hre hne
        | some msg => rw [hre] at this; simpa using this.symm
      · intro hspec hnone
        have hnone2 : (validateReviewForm rating comment).ratingError = none := hnone
        rw [hnone2] at this
        simp [hspec] at this
    · have := commentError_none_eq rating comment
      constructor
      · intro hne
        cases hce : (validateReviewForm rating comment).commentError with
        | none => exact absurd hce hne
        | some msg => rw [hce] at this; simpa using this.symm
      · intro hspec hnone
        have hnone2 : (validateReviewForm rating comment).commentError = none := hnone
        rw [hnone2] at this
        simp [hspec] at this

/-- C4 witness: a valid rating (4) with a too-short comment sets only the
comment error and sends nothing. -/
theorem reviewSubmit_gated_by_validation_witness :
    specReviewBoundsOk (JsNumber.val 4) "corta" = false ∧
    ((handleReviewSubmit true true (JsNumber.val 4) "corta" none none).requestSent = false ∧
      ((handleReviewSubmit true true (JsNumber.val 4) "corta" none none).ratingError ≠ none ↔
        specRatingOk (JsNumber.val 4) = false) ∧
      ((handleReviewSubmit true true (JsNumber.val 4) "corta" none none).commentError ≠ none ↔
        specCommentOk "corta" = false)) :=
  ⟨by decide,
    (reviewSubmit_gated_by_validation (JsNumber.val 4) "corta" none none).2 (by decide)⟩

/-! ## C5: failed fetches surface a message, reset pagination, no retry -/

/-- C5: when the site-list fetch fails — a rejected fetch or a non-OK
HTTP status — the view sets a user-facing error message, resets the
pagination to page 1, per_page 20, total 0, pages 1, leaves the shown
sites as they were, issues exactly one request, and swallows the failure
instead of rethrowing it. -/
theorem sitesFetch_failure_surfaces_message (filters : Filters) (authenticated : Bool)
    (favorites : FavoritesState) (prev : SitesViewState) (resp : SitesResponse)
    (h : sitesFetchFailed resp = true) :
    (runSitesFetch filters authenticated favorites prev resp).view.error ≠ none ∧
    (runSitesFetch filters authenticated favorites prev resp).view.pagination
      = ⟨1, 20, 0, 1⟩ ∧
    (runSitesFetch filters authenticated favorites prev resp).view.sites = prev.sites ∧
    (runSitesFetch filters authenticated favorites prev resp).view.loading = false ∧
    (runSitesFetch filters authenticated favorites prev resp).requestsIssued = 1 ∧
    (runSitesFetch filters authenticated favorites prev resp).rethrown = false := by
  cases resp with
  | netError message =>
    refine ⟨?_, rfl, rfl, rfl, rfl, rfl⟩
    show some _ ≠ none
    exact Option.some_ne_none _
  | success status data meta =>
    have hok : responseOk status = false := by
      simpa [sitesFetchFailed] using h
    have hred : runSitesFetch filters authenticated favorites prev
        (SitesResponse.success status data meta)
        = { view :=
              { prev with
                error := some ("Error " ++ toString status)
                pagination := ⟨1, SITES_PER_PAGE, 0, 1⟩
                loading := false }
            favorites := favorites
            redirectTo := none
            requestsIssued := 1
            rethrown := false } := by
      simp [runSitesFetch, hok]
    rw [hred]
    exact ⟨Option.some_ne_none _, rfl, rfl, rfl, rfl, rfl⟩

/-- C5 witness: a rejected fetch with message `"boom"` on a fresh
view. -/
theorem sitesFetch_failure_surfaces_message_witness :
    sitesFetchFailed (SitesResponse.netError "boom") = true ∧
    (runSitesFetch ⟨"", "", "", "", false, [], "any", 1, 20⟩ false ⟨[], []⟩
        ⟨[], ⟨1, 20, 0, 1⟩, none, true⟩ (SitesResponse.netError "boom")).view.error ≠ none ∧
    (runSitesFetch ⟨"", "", "", "", false, [], "any", 1, 20⟩ false ⟨[], []⟩
        ⟨[], ⟨1, 20, 0, 1⟩, none, true⟩ (SitesResponse.netError "boom")).view.pagination
      = ⟨1, 20, 0, 1⟩ :=
  ⟨by decide,
    (sitesFetch_failure_surfaces_message ⟨"", "", "", "", false, [], "any", 1, 20⟩ false ⟨[], []⟩
      ⟨[], ⟨1, 20, 0, 1⟩, none, true⟩ (SitesResponse.netError "boom") (by decide)).1,
    (sitesFetch_failure_surfaces_message ⟨"", "", "", "", false, [], "any", 1, 20⟩ false ⟨[], []⟩
      ⟨[], ⟨1, 20, 0, 1⟩, none, true⟩ (SitesResponse.netError "boom") (by decide)).2.1⟩

/-! ## C6: search history in local storage -/

/-- C6: submitting a non-empty trimmed term writes the history under the
key `portal_search_history`, with the new term first, all prior entries
equal to it case-insensitively removed, and at most 6 entries kept; the
mount-time restore yields at most 6 entries and falls back to an empty
history when the stored value is missing, unparsable, or not a JSON
array. -/
theorem searchHistory_localStorage_spec (st : HeroSearchState)
    (hterm : jsTrim st.searchTerm ≠ "") :
    (heroHandleSubmit st).storageWrite
      = some (HISTORY_KEY, saveTerm st.searchHistory (jsTrim st.searchTerm)) ∧
    HISTORY_KEY = "portal_search_history" ∧
    (saveTerm st.searchHistory (jsTrim st.searchTerm)).head? = some (jsTrim st.searchTerm) ∧
    (saveTerm st.searchHistory (jsTrim st.searchTerm)).length ≤ 6 ∧
    (∀ x ∈ (saveTerm st.searchHistory (jsTrim st.searchTerm)).tail,
      x ∈ st.searchHistory ∧ jsToLower x ≠ jsToLower (jsTrim st.searchTerm)) ∧
    (∀ sv : StoredValue, (restoreHistory sv).length ≤ 6) ∧
    restoreHistory StoredValue.absent = [] ∧
    restoreHistory StoredValue.invalid = [] ∧
    restoreHistory StoredValue.otherJson = [] ∧
    (∀ xs : List String, restoreHistory (StoredValue.array xs) = xs.take 6) := by
  refine ⟨?_, rfl, rfl, ?_, ?_, ?_, rfl, rfl, rfl, fun xs => rfl⟩
  · simp [heroHandleSubmit, strTruthy, hterm]
  · exact List.length_take_le 6 _
  · intro x hx
    have hx2 : x ∈ (st.searchHistory.filter
        (fun item => !(jsToLower item == jsToLower (jsTrim st.searchTerm)))).take 5 := hx
    have hx3 := List.mem_of_mem_take hx2
    rw [List.mem_filter] at hx3
    refine ⟨hx3.1, ?_⟩
    have := hx3.2
    simpa using this
  · intro sv
    cases sv <;> simp [restoreHistory]

/-- C6 witness: submitting `"  Casa  "` over a history already holding
`"casa"` and `"museo"`. -/
theorem searchHistory_localStorage_spec_witness :
    jsTrim "  Casa  " ≠ "" ∧
    (heroHandleSubmit ⟨"  Casa  ", ["casa", "museo"], false⟩).storageWrite
      = some (HISTORY_KEY, saveTerm ["casa", "museo"] (jsTrim "  Casa  ")) :=
  ⟨by decide,
    (searchHistory_localStorage_spec ⟨"  Casa  ", ["casa", "museo"], false⟩ (by decide)).1⟩

/-! ## C8: cover-image validation -/

/-- C8: a chosen file is kept as the selected cover image with a preview
exactly when its MIME type is allowed and its size is at most
5·1024·1024 bytes; a disallowed type clears the selection with the type
message, and an allowed but oversized file clears it with the size
message. -/
theorem handleImageChange_validates (file : JsFile) :
    (((handleImageChange [file]).coverImageFile = some file ∧
        (handleImageChange [file]).hasPreview = true) ↔
      (ALLOWED_IMAGE_TYPES.contains file.type = true ∧ file.size ≤ MAX_IMAGE_SIZE_BYTES)) ∧
    (ALLOWED_IMAGE_TYPES.contains file.type = false →
      handleImageChange [file] = ⟨none, "El archivo debe ser JPG, PNG o WEBP.", false⟩) ∧
    (ALLOWED_IMAGE_TYPES.contains file.type = true → MAX_IMAGE_SIZE_BYTES < file.size →
      handleImageChange [file] = ⟨none, "La imagen no puede superar los 5 MB.", false⟩) := by
  by_cases htm : file.type ∈ ALLOWED_IMAGE_TYPES
  · have ht : ALLOWED_IMAGE_TYPES.contains file.type = true := by simpa using htm
    by_cases hs : MAX_IMAGE_SIZE_BYTES < file.size
    · have hred : handleImageChange [file]
          = ⟨none, "La imagen no puede superar los 5 MB.", false⟩ := by
        simp [handleImageChange, htm, hs]
      rw [hred]
      refine ⟨?_, fun hcon => absurd htm (by simpa using hcon), fun _ _ => rfl⟩
      constructor
      · intro hacc
        cases hacc.1
      · intro hb
        omega
    · have hsz : file.size ≤ MAX_IMAGE_SIZE_BYTES := le_of_not_lt hs
      have hred : handleImageChange [file] = ⟨some file, "", true⟩ := by
        simp [handleImageChange, htm, hs]
      rw [hred]
      exact ⟨⟨fun _ => ⟨ht, hsz⟩, fun _ => ⟨rfl, rfl⟩⟩,
        fun hcon => absurd htm (by simpa using hcon), fun _ hcon => absurd hcon hs⟩
  · have htf : ALLOWED_IMAGE_TYPES.contains file.type = false := by simpa using htm
    have hred : handleImageChange [file]
        = ⟨none, "El archivo debe ser JPG, PNG o WEBP.", false⟩ := by
      simp [handleImageChange, htm]
    rw [hred]
    refine ⟨?_, fun _ => rfl, fun hcon _ => absurd (by simpa using hcon) htm⟩
    constructor
    · intro hacc
      cases hacc.1
    · intro hb
      rw [htf] at hb
      cases hb.1

/-- C8 witness: a 100-byte PNG is accepted; the hypotheses of the
acceptance direction are discharged by evaluation. -/
theorem handleImageChange_validates_witness :
    (handleImageChange [⟨"image/png", 100⟩]).coverImageFile = some ⟨"image/png", 100⟩ ∧
    (handleImageChange [⟨"image/png", 100⟩]).hasPreview = true :=
  (handleImageChange_validates ⟨"image/png", 100⟩).1.mpr ⟨by decide, by decide⟩
